import Mathlib

/-!
Shallow embedding of the filament-drying-oven firmware (src/src/main.cpp).

Pure translation choices:
* Machine integers become `Nat`; the C cast `((unsigned int) value) & 0xFF`
  of the (float) sensor reading is modelled on integral readings as
  `Int.toNat value % 256` (`trunc8`); the disconnect sentinel
  `DEVICE_DISCONNECTED_C` is the integer -127.
* The volatile globals (`filament`, `heating_stage`, `seconds`,
  `heater_is_on`, `refresh_screen`) form a `Session` record threaded
  through the loop phases.
* `panic` (which turns the heater off, shows the reason and beeps
  forever) is modelled as an error outcome carrying the reason and the
  session state with `heaterOn := false`.
* Blocking input is modelled by streams: `read_action` consumes a list of
  raw ADC samples; `wait_for_action` consumes a list of resolved encoder
  samples (successive `read_action` results), with one millisecond of
  simulated time per `delay(1)` polling iteration; `choose_filament` and
  the completion wait consume lists of resolved actions (successive
  `wait_for_action` results).  An exhausted stream models an infinite
  block and yields `none` / `blocked`.
* One call of `loop()` is `loop_step`, the composition of the
  selection prologue (lines 511-518), the completion branch (523-544)
  and the sensor/heater/display part (546-552).
-/

deriving instance DecidableEq for Except

namespace Thermostat

/-- Encoder action (enum `EncoderAction`). -/
inductive EncoderAction
  | NoAction
  | ActionNext
  | ActionPrev
  | ActionConfirm
  deriving DecidableEq

/-- Drying stage (enum `HeatingStage`). -/
inductive HeatingStage
  | Idle
  | PreHeating
  | Working
  deriving DecidableEq

/-- Filament profile (struct `Filament`). -/
structure Filament where
  name : String
  temp : Nat
  time_sec : Nat
  deriving DecidableEq

/-- Macro `HOURS(value)`. -/
def HOURS (value : Nat) : Nat := value * 3600

/-- The static profile table `filaments[]`. -/
def filaments : List Filament :=
  [⟨"PLA", 45, HOURS 6⟩,
   ⟨"ABS", 60, HOURS 4⟩,
   ⟨"PETG", 65, HOURS 4⟩,
   ⟨"TPU", 50, HOURS 8⟩,
   ⟨"Nylon", 70, HOURS 12⟩]

/-- Macro `MIN_IDX`. -/
def MIN_IDX : Nat := 0

/-- Macro `MAX_IDX` (= number of profiles - 1). -/
def MAX_IDX : Nat := filaments.length - 1

/-- `&filaments[idx]` for an in-range index. -/
def filamentAt (idx : Nat) : Filament := filaments.getD idx ⟨"", 0, 0⟩

/-- Reasons passed to `panic` (the argument strings of each call site). -/
inductive PanicReason
  | TempNaN
  | Frozen
  | Burned
  | HeaterState
  | Preheating
  deriving DecidableEq

/-- The mutable globals owned by the main loop. -/
structure Session where
  filament : Option Filament
  stage : HeatingStage
  seconds : Nat
  heaterOn : Bool
  refresh : Bool
  deriving DecidableEq

/-- `reset_timer()`: zero the seconds counter and clear the refresh flag. -/
def reset_timer (s : Session) : Session := { s with seconds := 0, refresh := false }

/-- `DEVICE_DISCONNECTED_C` of the DS18B20 driver. -/
def DEVICE_DISCONNECTED_C : Int := -127

/-- The C cast `((unsigned int) value) & 0xFF` on an integral reading
(negative non-sentinel readings collapse to 0, the implausibly-low band). -/
def trunc8 (value : Int) : Nat := value.toNat % 256

/-- `query_sensor()`: sentinel check, then truncation, then the
frozen/burned plausibility checks; otherwise the truncated reading. -/
def query_sensor (value : Int) : Except PanicReason Nat :=
  if value = DEVICE_DISCONNECTED_C then .error .TempNaN
  else
    if trunc8 value ≤ 1 then .error .Frozen
    else if 120 ≤ trunc8 value then .error .Burned
    else .ok (trunc8 value)

/-- `set_heater_state(temp)`: bang-bang control plus stage switching.
Errors with `HeaterState` when no profile is selected. -/
def set_heater_state (temp : Nat) (s : Session) : Except PanicReason Session :=
  match s.filament with
  | none => .error .HeaterState
  | some f =>
    if f.temp < temp then
      let s1 := { s with heaterOn := false }
      if s1.stage = .Idle ∨ s1.stage = .PreHeating then
        .ok (reset_timer { s1 with stage := .Working })
      else .ok s1
    else
      let s1 := { s with heaterOn := true }
      if s1.stage = .Idle then
        .ok (reset_timer { s1 with stage := .PreHeating })
      else .ok s1

/-- `ENCODER_JITTER`, ms. -/
def ENCODER_JITTER : Nat := 5

/-- `ENCODER_TIMEOUT`, ms. -/
def ENCODER_TIMEOUT : Nat := 350

/-- One pass of the body of `read_action`'s sampling loop: the band
classification of a single raw ADC value; `none` when the value falls in
no band, in which case the loop samples again. -/
def classify (value : Nat) : Option EncoderAction :=
  if value = 0 then some .NoAction
  else if 840 < value ∧ value < 850 then some .ActionPrev
  else if 690 < value ∧ value < 705 then some .ActionNext
  else if 560 < value ∧ value < 610 then some .ActionConfirm
  else none

/-- `read_action()` over a finite stream of raw samples: returns the first
classifiable sample's action; `none` when the stream is exhausted first
(the C loop would still be spinning). -/
def read_action : List Nat → Option EncoderAction
  | [] => none
  | v :: rest =>
    match classify v with
    | some a => some a
    | none => read_action rest

/-- The pairing loop of `wait_for_action`: scan for the opposite-direction
level, giving up once the elapsed milliseconds exceed `ENCODER_TIMEOUT`.
Each non-breaking iteration costs one millisecond (`delay(1)`).  Returns
the elapsed time at exit and the unconsumed samples. -/
def pair_wait (paired : EncoderAction) : List EncoderAction → Nat → Nat × List EncoderAction
  | [], t => (t, [])
  | s :: rest, t =>
    if s = paired then (t, rest)
    else if ENCODER_TIMEOUT < t + 1 then (t + 1, rest)
    else pair_wait paired rest (t + 1)

/-- The release loop of `wait_for_action`: scan until the level returns to
`NoAction`, one millisecond per non-breaking iteration; `none` when the
stream is exhausted first. -/
def release_wait : List EncoderAction → Nat → Option (Nat × List EncoderAction)
  | [], _ => none
  | s :: rest, t =>
    if s = .NoAction then some (t, rest)
    else release_wait rest (t + 1)

/-- Result of one resolved encoder action: the action, the quiet-period
hold (the argument of the final `delay`) and the unconsumed samples. -/
structure Resolved where
  action : EncoderAction
  quiet : Nat
  rest : List EncoderAction
  deriving DecidableEq

/-- The pairing step selected by the initiating sample: `ActionPrev`
waits for `ActionNext` and vice versa; other actions skip pairing. -/
def pair_after (a : EncoderAction) (rest : List EncoderAction) : Nat × List EncoderAction :=
  if a = .ActionPrev then pair_wait .ActionNext rest 0
  else if a = .ActionNext then pair_wait .ActionPrev rest 0
  else (0, rest)

/-- `wait_for_action()` over a finite stream of resolved levels
(successive `read_action` results).  A first sample of `NoAction` returns
immediately; otherwise the pairing loop, the release loop, and the
quiet-period computation `time_diff * 2 + ENCODER_JITTER` with
`time_diff = 0` for `ActionConfirm` run in order.  `none` models an
exhausted stream (a still-blocking call). -/
def wait_for_action : List EncoderAction → Option Resolved
  | [] => none
  | a :: rest =>
    if a = .NoAction then some ⟨.NoAction, 0, rest⟩
    else
      match release_wait (pair_after a rest).2 (pair_after a rest).1 with
      | none => none
      | some q =>
        some ⟨a, (if a = .ActionConfirm then 0 else q.1) * 2 + ENCODER_JITTER, q.2⟩

/-- One menu step of `choose_filament` on a non-confirm action: the cyclic
index update (`Next` wraps `MAX_IDX` to 0, `Prev` wraps 0 to `MAX_IDX`,
anything else leaves the index alone). -/
def menu_step (idx : Nat) : EncoderAction → Nat
  | .ActionNext => if idx = MAX_IDX then 0 else idx + 1
  | .ActionPrev => if idx = MIN_IDX then MAX_IDX else idx - 1
  | _ => idx

/-- The loop of `choose_filament` from a given index over a finite stream
of resolved actions: `ActionConfirm` returns the current index, other
actions step the index; `none` models an exhausted stream. -/
def choose_filament_idx : Nat → List EncoderAction → Option Nat
  | _, [] => none
  | idx, a :: rest =>
    if a = .ActionConfirm then some idx
    else choose_filament_idx (menu_step idx a) rest

/-- `choose_filament()`: the menu always starts at `MIN_IDX`. -/
def choose_filament (menu : List EncoderAction) : Option Nat :=
  choose_filament_idx MIN_IDX menu

/-- Lines 511-518 of `loop()`: when no profile is selected, turn the
heater off, run the selection menu, then clear the display, reset the
timer, revert the stage to `Idle` and request a refresh. -/
def selection_phase (menu : List EncoderAction) (s : Session) : Option Session :=
  match s.filament with
  | some _ => some s
  | none =>
    match choose_filament menu with
    | none => none
    | some idx =>
      some ⟨some (filamentAt idx), .Idle, 0, false, true⟩

/-- Result of the completion branch: the session afterwards, the number
of audible pulses emitted, and whether the branch was taken (the C
`return`). -/
structure CompletionResult where
  state : Session
  beeps : Nat
  finished : Bool
  deriving DecidableEq

/-- Lines 523-544 of `loop()`: when the stage is `Working` and the elapsed
seconds exceed the profile's drying time, turn the heater off, beep three
times, block until an `ActionConfirm` (all other resolved actions are
discarded), clear the selected profile and return.  The stage field is
not touched here. -/
def completion_phase (finishWait : List EncoderAction) (s : Session) : Option CompletionResult :=
  match s.stage, s.filament with
  | .Working, some f =>
    if f.time_sec < s.seconds then
      if EncoderAction.ActionConfirm ∈ finishWait then
        some ⟨{ s with heaterOn := false, filament := none }, 3, true⟩
      else none
    else some ⟨s, 0, false⟩
  | _, _ => some ⟨s, 0, false⟩

/-- Lines 546-552 of `loop()` plus the panic exits inside `query_sensor`,
`set_heater_state` and `update_screen`: read the sensor, drive the
heater, and when a refresh is due run `update_screen`, whose preheating
branch panics once the counter reaches one hour.  Every panic carries the
state with the heater forced off (the `turn_off()` at the top of
`panic`). -/
def drying_phase (value : Int) (s : Session) : Except (PanicReason × Session) Session :=
  match query_sensor value with
  | .error r => .error (r, { s with heaterOn := false })
  | .ok temp =>
    match set_heater_state temp s with
    | .error r => .error (r, { s with heaterOn := false })
    | .ok s1 =>
      if s1.refresh then
        let s2 := { s1 with refresh := false }
        if s2.stage ≠ .Working ∧ 3600 ≤ s2.seconds then
          .error (.Preheating, { s2 with heaterOn := false })
        else .ok s2
      else .ok s1

/-- The oracle inputs of one `loop()` call. -/
structure LoopInput where
  sensor : Int
  menu : List EncoderAction
  finishWait : List EncoderAction
  deriving DecidableEq

/-- Outcome of one `loop()` call: a normal return with the new state and
the number of completion beeps, an unbounded block inside a wait, or a
panic (terminal alarm state, heater off). -/
inductive StepOutcome
  | ok (s : Session) (beeps : Nat)
  | blocked
  | panicked (reason : PanicReason) (s : Session)
  deriving DecidableEq

/-- One call of `loop()`: the three phases in source order; the completion
branch, when taken, returns early and skips the sensor part. -/
def loop_step (inp : LoopInput) (s : Session) : StepOutcome :=
  match selection_phase inp.menu s with
  | none => .blocked
  | some s1 =>
    match completion_phase inp.finishWait s1 with
    | none => .blocked
    | some c =>
      if c.finished then .ok c.state c.beeps
      else
        match drying_phase inp.sensor c.state with
        | .error (r, sp) => .panicked r sp
        | .ok s2 => .ok s2 0

/-- The session invariant claimed by the spec's data model. -/
def SessionInv (s : Session) : Prop := s.stage ≠ .Idle → s.filament ≠ none

instance (s : Session) : Decidable (SessionInv s) := by
  unfold SessionInv
  infer_instance

/-! Helper lemmas shared by several developments below. -/

/-- A completed selection leaves a selected profile behind. -/
theorem selection_phase_filament_ne (menu : List EncoderAction) (s s1 : Session)
    (h : selection_phase menu s = some s1) : s1.filament ≠ none := by
  rcases hf : s.filament with _ | f
  · rcases hc : choose_filament menu with _ | idx <;>
      simp [selection_phase, hf, hc] at h
    subst h
    simp
  · simp [selection_phase, hf] at h
    subst h
    simp [hf]

/-- The completion branch either fires (and reports so) or leaves the
session untouched. -/
theorem completion_phase_cases (finishWait : List EncoderAction) (s : Session)
    (c : CompletionResult) (h : completion_phase finishWait s = some c) :
    c.finished = true ∨ c.state = s := by
  cases hstg : s.stage <;> rcases hf : s.filament with _ | f <;>
    simp only [completion_phase, hstg, hf, Option.some.injEq] at h <;>
    try { subst h; exact Or.inr rfl }
  split_ifs at h with h1 h2
  · rw [Option.some_inj] at h
    subst h
    exact Or.inl rfl
  · rw [Option.some_inj] at h
    subst h
    exact Or.inr rfl

/-- `query_sensor` can only panic for the three sensor reasons. -/
theorem query_sensor_error_reason (v : Int) (r : PanicReason)
    (h : query_sensor v = .error r) : r = .TempNaN ∨ r = .Frozen ∨ r = .Burned := by
  unfold query_sensor at h
  split_ifs at h <;> simp_all

/-- With a selected profile, `set_heater_state` cannot panic. -/
theorem set_heater_state_ok_of_some (t : Nat) (s : Session) (hf : s.filament ≠ none) :
    ∃ s1, set_heater_state t s = .ok s1 := by
  rcases h : s.filament with _ | f
  · exact absurd h hf
  · simp only [set_heater_state, h]
    split_ifs <;> exact ⟨_, rfl⟩

/-- `set_heater_state` never changes the selected profile. -/
theorem set_heater_state_filament (t : Nat) (s s1 : Session)
    (h : set_heater_state t s = .ok s1) : s1.filament = s.filament := by
  rcases hf : s.filament with _ | f
  · simp [set_heater_state, hf] at h
  · simp only [set_heater_state, hf] at h
    split_ifs at h <;> simp_all [reset_timer] <;> subst h <;> simp [hf]

/-- With a selected profile, the sensor/heater/display part never panics
with the internal-consistency reason. -/
theorem drying_phase_error_reason (v : Int) (s : Session) (hf : s.filament ≠ none)
    (r : PanicReason) (sp : Session) (h : drying_phase v s = .error (r, sp)) :
    r ≠ .HeaterState := by
  cases hq : query_sensor v with
  | error r0 =>
    simp only [drying_phase, hq, Except.error.injEq, Prod.mk.injEq] at h
    obtain ⟨h1, -⟩ := h
    subst h1
    rcases query_sensor_error_reason v r0 hq with h2 | h2 | h2 <;> subst h2 <;> decide
  | ok temp =>
    obtain ⟨s1, hs1⟩ := set_heater_state_ok_of_some temp s hf
    simp only [drying_phase, hq, hs1] at h
    by_cases hr : s1.refresh = true
    · rw [if_pos hr] at h
      split_ifs at h with hcond
      simp only [Except.error.injEq, Prod.mk.injEq] at h
      obtain ⟨h1, -⟩ := h
      subst h1
      decide
    · rw [if_neg hr] at h
      exact absurd h (by simp)

/-- The main loop never triggers the `HeaterState` panic. -/
theorem loop_step_panic_reason (inp : LoopInput) (s : Session) (r : PanicReason)
    (sp : Session) (h : loop_step inp s = .panicked r sp) : r ≠ .HeaterState := by
  cases hsel : selection_phase inp.menu s with
  | none => simp [loop_step, hsel] at h
  | some s1 =>
    cases hcomp : completion_phase inp.finishWait s1 with
    | none => simp [loop_step, hsel, hcomp] at h
    | some c =>
      by_cases hfin : c.finished = true
      · simp [loop_step, hsel, hcomp, hfin] at h
      · have hcs : c.state = s1 := by
          rcases completion_phase_cases _ _ _ hcomp with h1 | h1
          · exact absurd h1 hfin
          · exact h1
        have hfil : c.state.filament ≠ none := by
          rw [hcs]
          exact selection_phase_filament_ne _ _ _ hsel
        cases hd : drying_phase inp.sensor c.state with
        | error p =>
          rcases p with ⟨r0, sp0⟩
          simp only [loop_step, hsel, hcomp, hfin, if_false, Bool.false_eq_true, hd,
            StepOutcome.panicked.injEq] at h
          obtain ⟨h1, -⟩ := h
          subst h1
          exact drying_phase_error_reason _ _ hfil _ _ hd
        | ok s2 => simp [loop_step, hsel, hcomp, hfin, hd] at h

/-! The claims. -/

/-- C1: with a selected profile, a reading strictly above the target
turns the heater off and moves `Idle`/`PreHeating` to `Working` with the
seconds counter reset (leaving `Working` untouched); a reading at or
below the target turns the heater on and moves `Idle` to `PreHeating`
with the counter reset (leaving other stages untouched).  In particular
an `Idle` session whose first reading is already above target goes
straight to `Working`, never through `PreHeating`. -/
theorem c1_set_heater_state (s : Session) (f : Filament) (t : Nat)
    (hf : s.filament = some f) :
    (f.temp < t → set_heater_state t s =
        .ok (if s.stage = .Working then { s with heaterOn := false }
             else { s with heaterOn := false, stage := .Working, seconds := 0, refresh := false }))
  ∧ (t ≤ f.temp → set_heater_state t s =
        .ok (if s.stage = .Idle then
               { s with heaterOn := true, stage := .PreHeating, seconds := 0, refresh := false }
             else { s with heaterOn := true }))
  ∧ (s.stage = .Idle → f.temp < t → set_heater_state t s =
        .ok { s with heaterOn := false, stage := .Working, seconds := 0, refresh := false }) := by
  refine ⟨?_, ?_, ?_⟩
  · intro h
    cases hstg : s.stage <;>
      simp [set_heater_state, reset_timer, hf, hstg, h]
  · intro h
    cases hstg : s.stage <;>
      simp [set_heater_state, reset_timer, hf, hstg, Nat.not_lt.mpr h]
  · intro hstg h
    simp [set_heater_state, reset_timer, hf, hstg, h]

/-- C1 witness: target 45, Idle session; a reading of 50 jumps to
`Working` (heater off), a reading of 40 moves to `PreHeating` (heater
on), both with the counter reset. -/
theorem c1_set_heater_state_witness :
    (Session.mk (some ⟨"PLA", 45, 21600⟩) .Idle 7 false false).filament = some ⟨"PLA", 45, 21600⟩
  ∧ set_heater_state 50 ⟨some ⟨"PLA", 45, 21600⟩, .Idle, 7, false, false⟩
      = .ok ⟨some ⟨"PLA", 45, 21600⟩, .Working, 0, false, false⟩
  ∧ set_heater_state 40 ⟨some ⟨"PLA", 45, 21600⟩, .Idle, 7, false, false⟩
      = .ok ⟨some ⟨"PLA", 45, 21600⟩, .PreHeating, 0, true, false⟩ :=
  ⟨rfl,
   by
     have h := (c1_set_heater_state ⟨some ⟨"PLA", 45, 21600⟩, .Idle, 7, false, false⟩
       ⟨"PLA", 45, 21600⟩ 50 rfl).2.2 rfl (by decide)
     exact h,
   by
     have h := (c1_set_heater_state ⟨some ⟨"PLA", 45, 21600⟩, .Idle, 7, false, false⟩
       ⟨"PLA", 45, 21600⟩ 40 rfl).2.1 (by decide)
     exact h⟩

/-- C2: the disconnect sentinel panics with `TempNaN`; a non-sentinel
reading truncating to at most 1 panics with `Frozen`; one truncating to
at least 120 panics with `Burned`; a reading truncating into [2, 119] is
returned unchanged with no panic; and a sentinel reading makes the very
loop iteration that reads it panic with the heater forced off. -/
theorem c2_query_sensor :
    query_sensor DEVICE_DISCONNECTED_C = .error .TempNaN
  ∧ (∀ v : Int, v ≠ DEVICE_DISCONNECTED_C → trunc8 v ≤ 1 → query_sensor v = .error .Frozen)
  ∧ (∀ v : Int, v ≠ DEVICE_DISCONNECTED_C → 120 ≤ trunc8 v → query_sensor v = .error .Burned)
  ∧ (∀ v : Int, 2 ≤ trunc8 v → trunc8 v ≤ 119 → query_sensor v = .ok (trunc8 v))
  ∧ (∀ (s : Session) (f : Filament) (menu finishWait : List EncoderAction),
       s.filament = some f → ¬(s.stage = .Working ∧ f.time_sec < s.seconds) →
       loop_step ⟨DEVICE_DISCONNECTED_C, menu, finishWait⟩ s
         = .panicked .TempNaN { s with heaterOn := false }) := by
  refine ⟨rfl, ?_, ?_, ?_, ?_⟩
  · intro v hne h
    simp [query_sensor, hne, h]
  · intro v hne h
    have h1 : ¬ trunc8 v ≤ 1 := by omega
    simp [query_sensor, hne, h1, h]
  · intro v h2 h119
    have hne : v ≠ DEVICE_DISCONNECTED_C := by
      intro hv
      rw [hv] at h2
      exact absurd h2 (by decide)
    have h1 : ¬ trunc8 v ≤ 1 := by omega
    have h120 : ¬ 120 ≤ trunc8 v := by omega
    simp [query_sensor, hne, h1, h120]
  · intro s f menu finishWait hf hnot
    have hq : query_sensor DEVICE_DISCONNECTED_C = Except.error PanicReason.TempNaN := rfl
    cases hstg : s.stage with
    | Working =>
      have hle : ¬ f.time_sec < s.seconds := fun hlt => hnot ⟨hstg, hlt⟩
      simp [loop_step, selection_phase, completion_phase, drying_phase, hf, hstg, hle, hq]
    | Idle =>
      simp [loop_step, selection_phase, completion_phase, drying_phase, hf, hstg, hq]
    | PreHeating =>
      simp [loop_step, selection_phase, completion_phase, drying_phase, hf, hstg, hq]

/-- C2 witness: 130 burns, 1 freezes, 40 passes through, and the sentinel
panics a preheating session within its iteration, heater off. -/
theorem c2_query_sensor_witness :
    trunc8 130 = 130
  ∧ query_sensor 130 = .error .Burned
  ∧ query_sensor 1 = .error .Frozen
  ∧ query_sensor 40 = .ok (trunc8 40)
  ∧ loop_step ⟨DEVICE_DISCONNECTED_C, [], []⟩
        ⟨some ⟨"PLA", 45, 21600⟩, .PreHeating, 5, true, false⟩
      = .panicked .TempNaN ⟨some ⟨"PLA", 45, 21600⟩, .PreHeating, 5, false, false⟩ :=
  ⟨by decide,
   c2_query_sensor.2.2.1 130 (by decide) (by decide),
   c2_query_sensor.2.1 1 (by decide) (by decide),
   c2_query_sensor.2.2.2.1 40 (by decide) (by decide),
   by
     have h := c2_query_sensor.2.2.2.2 ⟨some ⟨"PLA", 45, 21600⟩, .PreHeating, 5, true, false⟩
       ⟨"PLA", 45, 21600⟩ [] [] rfl (by decide)
     exact h⟩

/-- C5: a preheating session whose counter has reached one hour, with the
reading still at or below target (a valid reading, so the session stays
in `PreHeating`), panics with the `Preheating` reason on that very
iteration, heater forced off. -/
theorem c5_preheat_timeout (s : Session) (f : Filament) (v : Int) (t : Nat)
    (menu finishWait : List EncoderAction)
    (hf : s.filament = some f) (hstg : s.stage = .PreHeating)
    (hsec : 3600 ≤ s.seconds) (hr : s.refresh = true)
    (hq : query_sensor v = .ok t) (ht : t ≤ f.temp) :
    loop_step ⟨v, menu, finishWait⟩ s
      = .panicked .Preheating { s with heaterOn := false, refresh := false } := by
  have hnt : ¬ f.temp < t := Nat.not_lt.mpr ht
  simp [loop_step, selection_phase, completion_phase, drying_phase, set_heater_state,
        reset_timer, hf, hstg, hq, hnt, hr, hsec]

/-- C3 counterexample: a completed drying session confirmed by the user
ends the iteration with `stage = Working` and no selected profile — a
reachable state of the main loop in which the claimed invariant
`stage ≠ Idle → selectedProfile ≠ null` is false (the stage is only
reverted to `Idle` by the next iteration's selection prologue). -/
theorem c3_invariant_cex :
    loop_step ⟨40, [], [EncoderAction.ActionConfirm]⟩
        ⟨some ⟨"ABS", 60, 14400⟩, .Working, 14401, false, true⟩
      = .ok ⟨none, .Working, 14401, false, true⟩ 3
  ∧ ¬ SessionInv ⟨none, .Working, 14401, false, true⟩ := by decide

/-- C3 (amended): the invariant holds wherever the heater-state logic can
observe it — the loop can never panic with the internal-consistency
`HeaterState` reason, a completed selection always leaves a profile
selected, and `set_heater_state` only succeeds with a profile selected
and never clears it.  The completion handler is the one exception: it
clears the profile while leaving the stage at `Working` until the next
selection prologue. -/
theorem c3_invariant (inp : LoopInput) (s : Session) :
    (∀ (r : PanicReason) (sp : Session),
       loop_step inp s = .panicked r sp → r ≠ .HeaterState)
  ∧ (∀ s1 : Session, selection_phase inp.menu s = some s1 → SessionInv s1)
  ∧ (∀ (t : Nat) (s1 : Session), set_heater_state t s = .ok s1 → s1.filament ≠ none) := by
  refine ⟨fun r sp h => loop_step_panic_reason inp s r sp h, fun s1 h => ?_, fun t s1 h => ?_⟩
  · intro _
    exact selection_phase_filament_ne _ _ _ h
  · rw [set_heater_state_filament t s s1 h]
    rcases hf : s.filament with _ | f
    · simp [set_heater_state, hf] at h
    · simp

/-- C3 witness: the amended statement applied at a sensor-disconnect
panic (reason `TempNaN`, not `HeaterState`) and at a concrete selection. -/
theorem c3_invariant_witness :
    loop_step ⟨-127, [], []⟩ ⟨some ⟨"ABS", 60, 14400⟩, .PreHeating, 5, true, false⟩
      = .panicked .TempNaN ⟨some ⟨"ABS", 60, 14400⟩, .PreHeating, 5, false, false⟩
  ∧ PanicReason.TempNaN ≠ PanicReason.HeaterState
  ∧ SessionInv ⟨some (filamentAt 0), .Idle, 0, false, true⟩ :=
  ⟨by decide,
   (c3_invariant ⟨-127, [], []⟩ ⟨some ⟨"ABS", 60, 14400⟩, .PreHeating, 5, true, false⟩).1
     .TempNaN ⟨some ⟨"ABS", 60, 14400⟩, .PreHeating, 5, false, false⟩ (by decide),
   (c3_invariant ⟨-127, [.ActionConfirm], []⟩ ⟨none, .Idle, 0, false, false⟩).2.1
     ⟨some (filamentAt 0), .Idle, 0, false, true⟩ (by decide)⟩

/-- C4 counterexample: a completed session confirmed by the user: the
heater goes off, three pulses sound, the profile is cleared — but the
iteration ends with `stage = Working`, not `Idle`; the stage is reverted
only by the next iteration's selection prologue. -/
theorem c4_completion_cex :
    loop_step ⟨40, [], [EncoderAction.ActionConfirm]⟩
        ⟨some ⟨"PLA", 45, 21600⟩, .Working, 21601, true, false⟩
      = .ok ⟨none, .Working, 21601, false, false⟩ 3
  ∧ HeatingStage.Working ≠ HeatingStage.Idle := by decide

/-- C4 (amended): when the stage is `Working` and the counter exceeds the
profile's drying time, the completion branch commands the heater off,
emits exactly three pulses, blocks until a `Confirm` (returning nothing
while no `Confirm` arrives, all other actions ignored) and clears the
selected profile; control then returns to the selection flow, whose
prologue — after the next profile is chosen — is what reverts the stage
to `Idle` (the completion handler itself leaves the stage at `Working`). -/
theorem c4_completion (s : Session) (f : Filament) (v : Int)
    (menu finishWait : List EncoderAction)
    (hf : s.filament = some f) (hw : s.stage = .Working) (hd : f.time_sec < s.seconds) :
    (EncoderAction.ActionConfirm ∈ finishWait →
        completion_phase finishWait s
          = some ⟨{ s with heaterOn := false, filament := none }, 3, true⟩
      ∧ loop_step ⟨v, menu, finishWait⟩ s
          = .ok { s with heaterOn := false, filament := none } 3)
  ∧ (EncoderAction.ActionConfirm ∉ finishWait → completion_phase finishWait s = none)
  ∧ (∀ (menu2 : List EncoderAction) (s2 : Session),
       selection_phase menu2 { s with heaterOn := false, filament := none } = some s2 →
       s2.stage = .Idle ∧ s2.heaterOn = false ∧ s2.filament ≠ none) := by
  refine ⟨?_, ?_, ?_⟩
  · intro hmem
    constructor
    · simp [completion_phase, hf, hw, hd, hmem]
    · simp [loop_step, selection_phase, completion_phase, hf, hw, hd, hmem]
  · intro hmem
    simp [completion_phase, hf, hw, hd, hmem]
  · intro menu2 s2 h
    simp only [selection_phase] at h
    rcases hc : choose_filament menu2 with _ | idx <;>
      simp only [hc, Option.some.injEq] at h
    · exact absurd h (by simp)
    · subst h
      exact ⟨rfl, rfl, by simp⟩

/-- C4 witness: TPU session past its drying time: the branch fires on
`Confirm` (three pulses, heater off, profile cleared), blocks when no
`Confirm` arrives, and the following selection prologue yields `Idle`. -/
theorem c4_completion_witness :
    completion_phase [EncoderAction.ActionConfirm]
        ⟨some ⟨"TPU", 50, 28800⟩, .Working, 28801, true, false⟩
      = some ⟨⟨none, .Working, 28801, false, false⟩, 3, true⟩
  ∧ loop_step ⟨40, [], [EncoderAction.ActionConfirm]⟩
        ⟨some ⟨"TPU", 50, 28800⟩, .Working, 28801, true, false⟩
      = .ok ⟨none, .Working, 28801, false, false⟩ 3
  ∧ completion_phase [] ⟨some ⟨"TPU", 50, 28800⟩, .Working, 28801, true, false⟩ = none
  ∧ (Session.mk (some (filamentAt 0)) .Idle 0 false true).stage = .Idle :=
  ⟨((c4_completion ⟨some ⟨"TPU", 50, 28800⟩, .Working, 28801, true, false⟩
      ⟨"TPU", 50, 28800⟩ 40 [] [.ActionConfirm] rfl rfl (by decide)).1 (by decide)).1,
   ((c4_completion ⟨some ⟨"TPU", 50, 28800⟩, .Working, 28801, true, false⟩
      ⟨"TPU", 50, 28800⟩ 40 [] [.ActionConfirm] rfl rfl (by decide)).1 (by decide)).2,
   (c4_completion ⟨some ⟨"TPU", 50, 28800⟩, .Working, 28801, true, false⟩
      ⟨"TPU", 50, 28800⟩ 40 [] [] rfl rfl (by decide)).2.1 (by decide),
   ((c4_completion ⟨some ⟨"TPU", 50, 28800⟩, .Working, 28801, true, false⟩
      ⟨"TPU", 50, 28800⟩ 40 [] [] rfl rfl (by decide)).2.2 [.ActionConfirm]
      ⟨some (filamentAt 0), .Idle, 0, false, true⟩ (by decide)).1⟩

/-- C5 witness: PLA (target 45), one hour of preheating, reading 40:
panic with the `Preheating` reason, heater off. -/
theorem c5_preheat_timeout_witness :
    query_sensor 40 = .ok 40
  ∧ loop_step ⟨40, [], []⟩ ⟨some ⟨"PLA", 45, 21600⟩, .PreHeating, 3600, true, true⟩
      = .panicked .Preheating ⟨some ⟨"PLA", 45, 21600⟩, .PreHeating, 3600, false, false⟩ :=
  ⟨by decide,
   by
     have h := c5_preheat_timeout ⟨some ⟨"PLA", 45, 21600⟩, .PreHeating, 3600, true, true⟩
       ⟨"PLA", 45, 21600⟩ 40 40 [] [] rfl rfl (by decide) rfl (by decide) (by decide)
     exact h⟩

/-- C6 counterexample: a raw reading of 500 lies outside every band, yet
it is not treated as `NoAction` — the sampling loop merely skips it: a
single such sample never returns, and a later in-band sample (845, the
`Prev` band) decides the result. -/
theorem c6_read_action_cex :
    classify 500 = none
  ∧ read_action [500] = none
  ∧ read_action [500, 845] = some .ActionPrev
  ∧ some EncoderAction.ActionPrev ≠ some EncoderAction.NoAction := by decide

/-- C6 (amended): the classification of a single raw sample is
unambiguous — a true-zero reading yields `NoAction`, the three calibrated
bands yield their actions, and a reading outside every band yields no
classification at all; `read_action` returns the first classifiable
sample's action, skipping out-of-band samples, and does not return while
samples remain out-of-band (out-of-band readings are re-sampled, not
mapped to `NoAction`). -/
theorem c6_read_action :
    classify 0 = some .NoAction
  ∧ (∀ v : Nat, 840 < v → v < 850 → classify v = some .ActionPrev)
  ∧ (∀ v : Nat, 690 < v → v < 705 → classify v = some .ActionNext)
  ∧ (∀ v : Nat, 560 < v → v < 610 → classify v = some .ActionConfirm)
  ∧ (∀ v : Nat, v ≠ 0 → ¬(840 < v ∧ v < 850) → ¬(690 < v ∧ v < 705) →
       ¬(560 < v ∧ v < 610) → classify v = none)
  ∧ (∀ (v : Nat) (rest : List Nat), classify v = none →
       read_action (v :: rest) = read_action rest)
  ∧ (∀ (v : Nat) (a : EncoderAction) (rest : List Nat), classify v = some a →
       read_action (v :: rest) = some a)
  ∧ read_action [] = none := by
  refine ⟨rfl, ?_, ?_, ?_, ?_, ?_, ?_, rfl⟩
  · intro v h1 h2
    have hv : v ≠ 0 := by omega
    simp [classify, hv, h1, h2]
  · intro v h1 h2
    have hv : v ≠ 0 := by omega
    have hp : ¬(840 < v ∧ v < 850) := by omega
    simp [classify, hv, hp, h1, h2]
  · intro v h1 h2
    have hv : v ≠ 0 := by omega
    have hp : ¬(840 < v ∧ v < 850) := by omega
    have hn : ¬(690 < v ∧ v < 705) := by omega
    simp [classify, hv, hp, hn, h1, h2]
  · intro v hv hp hn hc
    simp [classify, hv, hp, hn, hc]
  · intro v rest h
    simp [read_action, h]
  · intro v a rest h
    simp [read_action, h]

/-- C6 witness: the amended statement evaluated on the `Prev` band and on
an out-of-band sample followed by a zero sample. -/
theorem c6_read_action_witness :
    classify 845 = some .ActionPrev
  ∧ read_action [845] = some .ActionPrev
  ∧ read_action [500, 0] = read_action [0] :=
  ⟨c6_read_action.2.1 845 (by decide) (by decide),
   c6_read_action.2.2.2.2.2.2.1 845 .ActionPrev [] (c6_read_action.2.1 845 (by decide) (by decide)),
   c6_read_action.2.2.2.2.2.1 500 [0] (by decide)⟩

set_option maxRecDepth 10000 in
/-- C7: a resolution starting with a `Prev` (resp. `Next`) sample always
returns that initiating direction whenever it returns at all — both when
the paired opposite level arrives within the timeout and when the
pairing times out (the documented race-safety fallback, not `NoAction`);
a single call yields exactly one action and consumes the whole gesture
(no second action is left pending in the concrete runs). -/
theorem c7_wait_for_action :
    (∀ (rest : List EncoderAction) (r : Resolved),
       wait_for_action (.ActionPrev :: rest) = some r → r.action = .ActionPrev)
  ∧ (∀ (rest : List EncoderAction) (r : Resolved),
       wait_for_action (.ActionNext :: rest) = some r → r.action = .ActionNext)
  ∧ wait_for_action (.ActionPrev :: (List.replicate 351 .ActionPrev ++ [.NoAction]))
      = some ⟨.ActionPrev, 707, []⟩
  ∧ wait_for_action [.ActionPrev, .ActionNext, .NoAction] = some ⟨.ActionPrev, 5, []⟩
  ∧ wait_for_action ([] : List EncoderAction) = none := by
  refine ⟨?_, ?_, by decide, by decide, rfl⟩
  · intro rest r h
    simp only [wait_for_action] at h
    rw [if_neg (by decide)] at h
    rcases hrel : release_wait (pair_after .ActionPrev rest).2 (pair_after .ActionPrev rest).1
        with _ | q <;> rw [hrel] at h
    · exact absurd h (by simp)
    · rw [Option.some_inj] at h
      subst h
      rfl
  · intro rest r h
    simp only [wait_for_action] at h
    rw [if_neg (by decide)] at h
    rcases hrel : release_wait (pair_after .ActionNext rest).2 (pair_after .ActionNext rest).1
        with _ | q <;> rw [hrel] at h
    · exact absurd h (by simp)
    · rw [Option.some_inj] at h
      subst h
      rfl

/-- C7 witness: the general part applied to a paired `Prev`-then-`Next`
gesture. -/
theorem c7_wait_for_action_witness :
    wait_for_action [.ActionPrev, .ActionNext, .NoAction] = some ⟨.ActionPrev, 5, []⟩
  ∧ Resolved.action ⟨.ActionPrev, 5, []⟩ = .ActionPrev :=
  ⟨by decide,
   c7_wait_for_action.1 [.ActionNext, .NoAction] ⟨.ActionPrev, 5, []⟩ (by decide)⟩

/-- C8 counterexample: a `Confirm` resolution holds for `ENCODER_JITTER`
(5 ms, the fixed jitter margin), not for exactly 0 as claimed: the code
zeroes only `time_diff` and then sleeps `time_diff * 2 + ENCODER_JITTER`. -/
theorem c8_quiet_period_cex :
    wait_for_action [.ActionConfirm, .NoAction] = some ⟨.ActionConfirm, ENCODER_JITTER, []⟩
  ∧ ENCODER_JITTER ≠ 0 := by decide

/-- C8 (amended): the quiet period is `time_diff * 2 + ENCODER_JITTER`
where `time_diff` is 0 for `Confirm` (so a `Confirm` holds for exactly
the jitter margin) and the elapsed time since the initiating sample for
a rotation (measured at the moment the level returns to `NoAction`). -/
theorem c8_quiet_period (a : EncoderAction) (rest : List EncoderAction) :
    (∀ r : Resolved,
       wait_for_action (.ActionConfirm :: rest) = some r → r.quiet = ENCODER_JITTER)
  ∧ ((a = .ActionPrev ∨ a = .ActionNext) →
       ∀ (t2 : Nat) (rest2 : List EncoderAction),
         release_wait (pair_after a rest).2 (pair_after a rest).1 = some (t2, rest2) →
         wait_for_action (a :: rest) = some ⟨a, t2 * 2 + ENCODER_JITTER, rest2⟩) := by
  constructor
  · intro r h
    simp only [wait_for_action] at h
    rw [if_neg (by decide)] at h
    rcases hrel : release_wait (pair_after .ActionConfirm rest).2 (pair_after .ActionConfirm rest).1
        with _ | q <;> rw [hrel] at h
    · exact absurd h (by simp)
    · rw [Option.some_inj] at h
      subst h
      simp
  · rintro (rfl | rfl) t2 rest2 hrel <;>
      simp [wait_for_action, hrel]

/-- C8 witness: the amended statement at a `Confirm` press and at a
paired rotation resolved with zero elapsed milliseconds. -/
theorem c8_quiet_period_witness :
    Resolved.quiet ⟨.ActionConfirm, ENCODER_JITTER, []⟩ = ENCODER_JITTER
  ∧ wait_for_action [.ActionPrev, .ActionNext, .NoAction]
      = some ⟨.ActionPrev, 0 * 2 + ENCODER_JITTER, []⟩ :=
  ⟨(c8_quiet_period .ActionConfirm [.NoAction]).1 ⟨.ActionConfirm, ENCODER_JITTER, []⟩ (by decide),
   (c8_quiet_period .ActionPrev [.ActionNext, .NoAction]).2 (Or.inl rfl) 0 [] (by decide)⟩

/-- C9: for every in-range catalog index, `Next` advances cyclically
(wrapping the last index to 0, equivalently plus one modulo the catalog
size), `Prev` retreats cyclically (wrapping 0 to the last index,
equivalently plus N-1 modulo N), `NoAction` leaves the index unchanged,
and a `Confirm` returns the current index. -/
theorem c9_menu_cycling (i : Nat) (hi : i < filaments.length) :
    menu_step i .ActionNext = (if i = MAX_IDX then 0 else i + 1)
  ∧ menu_step i .ActionNext = (i + 1) % filaments.length
  ∧ menu_step i .ActionPrev = (if i = MIN_IDX then MAX_IDX else i - 1)
  ∧ menu_step i .ActionPrev = (i + MAX_IDX) % filaments.length
  ∧ menu_step i .NoAction = i
  ∧ (∀ rest : List EncoderAction,
       choose_filament_idx i (.ActionConfirm :: rest) = some i) := by
  have h5 : filaments.length = 5 := rfl
  rw [h5] at hi
  refine ⟨rfl, ?_, rfl, ?_, rfl, ?_⟩
  · interval_cases i <;> decide
  · interval_cases i <;> decide
  · intro rest
    simp [choose_filament_idx]

/-- C9 witness: the wrap-arounds at both ends and a confirmation in the
middle of the catalog. -/
theorem c9_menu_cycling_witness :
    menu_step 4 .ActionNext = (4 + 1) % filaments.length
  ∧ menu_step 0 .ActionPrev = (0 + MAX_IDX) % filaments.length
  ∧ choose_filament_idx 2 [.ActionConfirm] = some 2 :=
  ⟨(c9_menu_cycling 4 (by decide)).2.1,
   (c9_menu_cycling 0 (by decide)).2.2.2.1,
   (c9_menu_cycling 2 (by decide)).2.2.2.2.2 []⟩

/-- C10: an iteration that starts with no profile selected runs the
selection with the heater already commanded off, from catalog index
`MIN_IDX = 0` (the local menu index is re-initialised on every entry, so
no trace of a previous selection survives), and its result — determined
by the menu actions alone, independent of the prior session — always has
the heater off. -/
theorem c10_selection_restart (s : Session) (menu : List EncoderAction)
    (hs : s.filament = none) :
    selection_phase menu s
      = (choose_filament menu).map
          (fun idx => Session.mk (some (filamentAt idx)) .Idle 0 false true)
  ∧ choose_filament menu = choose_filament_idx MIN_IDX menu
  ∧ MIN_IDX = 0
  ∧ (∀ s1 : Session, selection_phase menu s = some s1 → s1.heaterOn = false) := by
  have hmain : selection_phase menu s
      = (choose_filament menu).map
          (fun idx => Session.mk (some (filamentAt idx)) .Idle 0 false true) := by
    rcases hc : choose_filament menu with _ | idx <;>
      simp [selection_phase, hs, hc]
  refine ⟨hmain, rfl, rfl, ?_⟩
  intro s1 h
  rw [hmain] at h
  rcases hc : choose_filament menu with _ | idx <;> rw [hc] at h
  · exact absurd h (by simp)
  · simp only [Option.map_some', Option.some.injEq] at h
    subst h
    rfl

/-- C10 witness: a session that previously dried ABS re-enters selection
and, with a `Next` then `Confirm`, ends with profile index 1, stage
`Idle` and the heater off — identical to what any other prior session
would produce. -/
theorem c10_selection_restart_witness :
    (Session.mk none .Working 77 true false).filament = none
  ∧ selection_phase [.ActionNext, .ActionConfirm] ⟨none, .Working, 77, true, false⟩
      = (choose_filament [.ActionNext, .ActionConfirm]).map
          (fun idx => Session.mk (some (filamentAt idx)) .Idle 0 false true) :=
  ⟨rfl,
   (c10_selection_restart ⟨none, .Working, 77, true, false⟩
     [.ActionNext, .ActionConfirm] rfl).1⟩

end Thermostat
